import Mathlib

set_option maxRecDepth 40000

/-!
Verification of the unpaid-leave eligibility evaluation pipeline
(`src/common/eligibility_engine.rs`, `src/common/metrics.rs`).

Shallow embedding notes:
* Diagnostic texts are modelled as `List Char` (named `Str`).  Rust indexes
  strings by bytes while this model indexes by characters; since `str::find`
  only ever returns occurrence positions and pattern lengths are added to
  such positions, the sliced *contents* agree for every text, so the models
  are extensionally equal.
* `serde_json` is an external collaborator.  Its text parser is embedded as
  a fuel-based JSON parser (`jsonFromStr`), and the derived deserializers
  for the envelope/response structs follow the serde `visit_map` discipline:
  entries processed in order, duplicate known fields rejected, unknown
  fields ignored, missing required fields rejected.
* The `zen_engine` rule engine is an external collaborator: its errors are
  modelled by their opaque `Debug`/`Display` renderings carried as data.
-/

namespace Eligibility

/-- Diagnostic texts, modelled as character lists. -/
abbrev Str := List Char

/-- First index at which `pat` occurs as a contiguous substring of `hay`
(models Rust `str::find`, which returns the first match). -/
def findSub (hay pat : Str) : Option Nat :=
  if pat.isPrefixOf hay then some 0
  else
    match hay with
    | [] => none
    | _ :: t => (findSub t pat).map (· + 1)

/-- Models Rust `str::contains`. -/
def containsSub (hay pat : Str) : Bool :=
  (findSub hay pat).isSome

/-- Models the Rust comma split of `str`: maximal split, keeping empty
fragments. -/
def splitComma : Str → List Str
  | [] => [[]]
  | c :: rest =>
    if c = ',' then [] :: splitComma rest
    else
      match splitComma rest with
      | h :: t => (c :: h) :: t
      | [] => [[c]]

-- =================== ERROR STRUCTURES ===================

/-- Source struct `ValidationError` with fields message and path. -/
structure ValidationError where
  message : String
  path : String
deriving DecidableEq, Repr

/-- Source struct `ValidationErrorSource` with its errors list. -/
structure ValidationErrorSource where
  errors : List ValidationError
deriving DecidableEq, Repr

/-- Source struct `ValidationErrorDetails` (`error_type` is the
serde-renamed `type` field). -/
structure ValidationErrorDetails where
  source : ValidationErrorSource
  error_type : String
deriving DecidableEq, Repr

-- =================== MANUAL FALLBACK EXTRACTOR ===================

/-- The key `"message":` used by the `line.contains` guard. -/
def msgContKey : Str := "\"message\":".data

/-- The key `"message":"` whose occurrence starts the extracted value. -/
def msgKey : Str := "\"message\":\"".data

/-- The key `"path":` used by the `line.contains` guard. -/
def pathContKey : Str := "\"path\":".data

/-- The key `"path":"` whose occurrence starts the extracted value. -/
def pathKey : Str := "\"path\":\"".data

/-- Models the body of each `if` in `manual_extract_errors`: find `key`
in `line`, then take the characters up to the next `"`.  Returns `none`
when the key or the closing quote is absent (the Rust code then leaves the
accumulator unchanged). -/
def extractValue (line key : Str) : Option Str :=
  match findSub line key with
  | none => none
  | some start =>
    let vstart := start + key.length
    match findSub (line.drop vstart) "\"".data with
    | none => none
    | some e => some ((line.drop vstart).take e)

/-- One key scan on one comma fragment, including the outer
`line.contains` guard from the source. -/
def recoverKey (contKey key : Str) (line : Str) : Option String :=
  if containsSub line contKey then (extractValue line key).map String.mk
  else none

/-- The `for line in lines` loop of `manual_extract_errors`: each fragment
may overwrite the `message` and `path` accumulators. -/
def scanLines : List Str → String → String → String × String
  | [], m, p => (m, p)
  | line :: rest, m, p =>
    scanLines rest ((recoverKey msgContKey msgKey line).getD m)
      ((recoverKey pathContKey pathKey line).getD p)

/-- Source function `UnpaidLeaveDecisionEngine::manual_extract_errors`. -/
def manual_extract_errors (text : Str) : Option (List ValidationError) :=
  if containsSub text "is not one of".data then
    let mp := scanLines (splitComma text) "" ""
    if mp.1 ≠ "" then
      some [⟨mp.1, if mp.2 = "" then "/input/unknown" else mp.2⟩]
    else none
  else none

-- =================== JSON TEXT PARSER (serde_json model) ===================

/-- JSON documents as parsed from text.  Numbers keep their raw numeral
text: no claim inspects numeric values of parsed diagnostic fragments. -/
inductive JsonTxt where
  | null
  | bool (b : Bool)
  | num (raw : Str)
  | str (s : Str)
  | arr (xs : List JsonTxt)
  | obj (fields : List (Str × JsonTxt))

/-- JSON whitespace. -/
def isWsChar (c : Char) : Bool := c = ' ' || c = '\t' || c = '\n' || c = '\r'

def skipWs : Str → Str
  | [] => []
  | c :: cs => if isWsChar c then skipWs cs else c :: cs

def hexVal (c : Char) : Option Nat :=
  if '0' ≤ c ∧ c ≤ '9' then some (c.toNat - '0'.toNat)
  else if 'a' ≤ c ∧ c ≤ 'f' then some (c.toNat - 'a'.toNat + 10)
  else if 'A' ≤ c ∧ c ≤ 'F' then some (c.toNat - 'A'.toNat + 10)
  else none

def escChar (c : Char) : Option Char :=
  if c = '"' then some '"'
  else if c = '\\' then some '\\'
  else if c = '/' then some '/'
  else if c = 'b' then some (Char.ofNat 8)
  else if c = 'f' then some (Char.ofNat 12)
  else if c = 'n' then some '\n'
  else if c = 'r' then some '\r'
  else if c = 't' then some '\t'
  else none

/-- JSON string-literal body (after the opening quote).  Surrogate escape
pairs are rejected rather than combined — the diagnostic texts at issue are
ASCII, and rejecting only narrows the success set of the external parser
being modelled. -/
def parseStrLit : Nat → Str → Option (Str × Str)
  | 0, _ => none
  | _ + 1, [] => none
  | fuel + 1, c :: cs =>
    if c = '"' then some ([], cs)
    else if c = '\\' then
      match cs with
      | [] => none
      | e :: cs2 =>
        if e = 'u' then
          match cs2 with
          | h1 :: h2 :: h3 :: h4 :: cs3 =>
            match hexVal h1, hexVal h2, hexVal h3, hexVal h4 with
            | some a, some b, some c4, some d =>
              let n := ((a * 16 + b) * 16 + c4) * 16 + d
              if 0xD800 ≤ n ∧ n ≤ 0xDFFF then none
              else
                match parseStrLit fuel cs3 with
                | some (s, rest) => some (Char.ofNat n :: s, rest)
                | none => none
            | _, _, _, _ => none
          | _ => none
        else
          match escChar e with
          | some ch =>
            match parseStrLit fuel cs2 with
            | some (s, rest) => some (ch :: s, rest)
            | none => none
          | none => none
    else if c.toNat < 0x20 then none
    else
      match parseStrLit fuel cs with
      | some (s, rest) => some (c :: s, rest)
      | none => none

def digitSpan : Str → Str × Str
  | [] => ([], [])
  | c :: cs =>
    if c.isDigit then
      let dr := digitSpan cs
      (c :: dr.1, dr.2)
    else ([], c :: cs)

/-- JSON integer part: `0` or a nonzero digit followed by digits. -/
def parseIntPart : Str → Option (Str × Str)
  | [] => none
  | c :: cs =>
    if c = '0' then some ([c], cs)
    else if c.isDigit then
      let dr := digitSpan cs
      some (c :: dr.1, dr.2)
    else none

/-- JSON fraction part: `.` followed by one or more digits, or nothing. -/
def parseFracPart : Str → Option (Str × Str)
  | '.' :: cs =>
    match digitSpan cs with
    | ([], _) => none
    | (d, r) => some ('.' :: d, r)
  | s => some ([], s)

/-- JSON exponent part: `e`/`E`, optional sign, one or more digits, or
nothing. -/
def parseExpPart : Str → Option (Str × Str)
  | [] => some ([], [])
  | c :: cs =>
    if c = 'e' ∨ c = 'E' then
      let sr : Str × Str :=
        match cs with
        | s :: cs2 => if s = '+' ∨ s = '-' then ([s], cs2) else ([], s :: cs2)
        | [] => ([], [])
      match digitSpan sr.2 with
      | ([], _) => none
      | (d, r) => some (c :: (sr.1 ++ d), r)
    else some ([], c :: cs)

def parseNumber (s : Str) : Option (Str × Str) :=
  let sgn : Str × Str :=
    match s with
    | '-' :: cs => (['-'], cs)
    | _ => ([], s)
  match parseIntPart sgn.2 with
  | none => none
  | some (ip, s2) =>
    match parseFracPart s2 with
    | none => none
    | some (fp, s3) =>
      match parseExpPart s3 with
      | none => none
      | some (ep, s4) => some (sgn.1 ++ ip ++ fp ++ ep, s4)

/-- The three mutually recursive productions of the JSON grammar (value,
array elements, object members), by structural recursion on fuel so that
concrete inputs evaluate inside the kernel.  Each production expects input
with no leading whitespace. -/
def parsers : Nat →
    (Str → Option (JsonTxt × Str)) ×
    (Str → Option (List JsonTxt × Str)) ×
    (Str → Option (List (Str × JsonTxt) × Str))
  | 0 => (fun _ => none, fun _ => none, fun _ => none)
  | fuel + 1 =>
    let prev := parsers fuel
    let value : Str → Option (JsonTxt × Str) := fun s =>
      match s with
    | [] => none
    | c :: cs =>
      if c = '"' then
        match parseStrLit (cs.length + 1) cs with
        | some (body, rest) => some (.str body, rest)
        | none => none
      else if c = 't' then
        match cs with
        | 'r' :: 'u' :: 'e' :: rest => some (.bool true, rest)
        | _ => none
      else if c = 'f' then
        match cs with
        | 'a' :: 'l' :: 's' :: 'e' :: rest => some (.bool false, rest)
        | _ => none
      else if c = 'n' then
        match cs with
        | 'u' :: 'l' :: 'l' :: rest => some (.null, rest)
        | _ => none
      else if c = '\x7b' then
        match skipWs cs with
        | '\x7d' :: rest => some (.obj [], rest)
        | s1 =>
          match prev.2.2 s1 with
          | some (fs, rest) => some (.obj fs, rest)
          | none => none
      else if c = '[' then
        match skipWs cs with
        | ']' :: rest => some (.arr [], rest)
        | s1 =>
          match prev.2.1 s1 with
          | some (xs, rest) => some (.arr xs, rest)
          | none => none
      else
        match parseNumber (c :: cs) with
        | some (raw, rest) => some (.num raw, rest)
        | none => none
    let elems : Str → Option (List JsonTxt × Str) := fun s =>
      match prev.1 s with
      | none => none
      | some (v, rest) =>
        match skipWs rest with
        | ',' :: rest2 =>
          match prev.2.1 (skipWs rest2) with
          | some (xs, rest3) => some (v :: xs, rest3)
          | none => none
        | ']' :: rest2 => some ([v], rest2)
        | _ => none
    let fields : Str → Option (List (Str × JsonTxt) × Str) := fun s =>
      match s with
      | '"' :: cs =>
        match parseStrLit (cs.length + 1) cs with
        | none => none
        | some (key, rest) =>
          match skipWs rest with
          | ':' :: rest2 =>
            match prev.1 (skipWs rest2) with
            | none => none
            | some (v, rest3) =>
              match skipWs rest3 with
              | ',' :: rest4 =>
                match prev.2.2 (skipWs rest4) with
                | some (fs, rest5) => some ((key, v) :: fs, rest5)
                | none => none
              | '\x7d' :: rest4 => some ([(key, v)], rest4)
              | _ => none
          | _ => none
      | _ => none
    (value, elems, fields)

/-- One JSON value at the given fuel. -/
def parseValue (fuel : Nat) (s : Str) : Option (JsonTxt × Str) :=
  (parsers fuel).1 s

/-- Models the `serde_json` text parsing entry point: one value, possibly
surrounded by whitespace, consuming the whole input.  Every fuel
decrement consumes at least one character, so `length + 1` fuel never
runs out on well-formed input. -/
def jsonFromStr (s : Str) : Option JsonTxt :=
  match parseValue (s.length + 1) (skipWs s) with
  | some (v, rest) => if (skipWs rest).isEmpty then some v else none
  | none => none

-- ============ DERIVED DESERIALIZERS FOR THE ERROR ENVELOPE ============

/-- serde `visit_map` loop for `ValidationError`: entries in order,
duplicate known fields rejected, unknown fields ignored, both fields
required. -/
def deVEFields : List (Str × JsonTxt) → Option String → Option String → Option ValidationError
  | [], some m, some p => some ⟨m, p⟩
  | [], _, _ => none
  | (k, v) :: rest, m?, p? =>
    if k = "message".data then
      match m? with
      | some _ => none
      | none =>
        match v with
        | .str s => deVEFields rest (some (String.mk s)) p?
        | _ => none
    else if k = "path".data then
      match p? with
      | some _ => none
      | none =>
        match v with
        | .str s => deVEFields rest m? (some (String.mk s))
        | _ => none
    else deVEFields rest m? p?

def deValidationError : JsonTxt → Option ValidationError
  | .obj fields => deVEFields fields none none
  | _ => none

def deVEList : List JsonTxt → Option (List ValidationError)
  | [] => some []
  | v :: vs =>
    match deValidationError v, deVEList vs with
    | some e, some es => some (e :: es)
    | _, _ => none

/-- serde `visit_map` loop for `ValidationErrorSource`. -/
def deSourceFields : List (Str × JsonTxt) → Option (List ValidationError) → Option ValidationErrorSource
  | [], some es => some ⟨es⟩
  | [], none => none
  | (k, v) :: rest, e? =>
    if k = "errors".data then
      match e? with
      | some _ => none
      | none =>
        match v with
        | .arr xs =>
          match deVEList xs with
          | some es => deSourceFields rest (some es)
          | none => none
        | _ => none
    else deSourceFields rest e?

def deValidationErrorSource : JsonTxt → Option ValidationErrorSource
  | .obj fields => deSourceFields fields none
  | _ => none

/-- serde `visit_map` loop for `ValidationErrorDetails` (`source` and the
renamed `type` field required). -/
def deDetailsFields : List (Str × JsonTxt) → Option ValidationErrorSource → Option String → Option ValidationErrorDetails
  | [], some src, some ty => some ⟨src, ty⟩
  | [], _, _ => none
  | (k, v) :: rest, s?, t? =>
    if k = "source".data then
      match s? with
      | some _ => none
      | none =>
        match deValidationErrorSource v with
        | some src => deDetailsFields rest (some src) t?
        | none => none
    else if k = "type".data then
      match t? with
      | some _ => none
      | none =>
        match v with
        | .str s => deDetailsFields rest s? (some (String.mk s))
        | _ => none
    else deDetailsFields rest s? t?

def deValidationErrorDetails : JsonTxt → Option ValidationErrorDetails
  | .obj fields => deDetailsFields fields none none
  | _ => none

/-- Models `serde_json::from_str::<ValidationErrorDetails>` on a candidate
fragment. -/
def parseValidationErrorDetails (s : Str) : Option ValidationErrorDetails :=
  (jsonFromStr s).bind deValidationErrorDetails

-- =================== PATTERN-BASED EXTRACTION ===================

/-- First bracket pattern opener from the source. -/
def startPattern1 : Str := "\x7b\"source\":\x7b\"errors\":".data

/-- Second bracket pattern opener from the source. -/
def startPattern2 : Str := "\x7b\"errors\":".data

/-- Third bracket pattern opener from the source. -/
def startPattern3 : Str := "\"errors\":[".data

/-- Closer shared by the first two patterns. -/
def endPatternValidation : Str := "\"type\":\"Validation\"\x7d".data

/-- Closer of the third pattern. -/
def endPatternBracket : Str := "]".data

/-- The ordered pattern list of `extract_json_from_string`. -/
def patterns : List (Str × Str) :=
  [(startPattern1, endPatternValidation),
   (startPattern2, endPatternValidation),
   (startPattern3, endPatternBracket)]

/-- Body of one iteration of the pattern loop in
`extract_json_from_string`; `none` means the loop falls through to the
next pattern (opener absent, closer absent after the opener, or both the
structured parse of the candidate and the manual fallback on the whole
text failed). -/
def tryPattern (text sp ep : Str) : Option (List ValidationError) :=
  match findSub text sp with
  | none => none
  | some start =>
    let searchFrom := start + sp.length
    match findSub (text.drop searchFrom) ep with
    | none => none
    | some relEnd =>
      let endIdx := searchFrom + relEnd + ep.length
      let jsonCandidate := (text.drop start).take (endIdx - start)
      match parseValidationErrorDetails jsonCandidate with
      | some details => some details.source.errors
      | none => manual_extract_errors text

/-- The `for (start_pattern, end_pattern) in patterns` loop, with the
trailing whole-text manual fallback once the list is exhausted. -/
def extractLoop (text : Str) : List (Str × Str) → Option (List ValidationError)
  | [] => manual_extract_errors text
  | (sp, ep) :: rest =>
    match tryPattern text sp ep with
    | some r => some r
    | none => extractLoop text rest

/-- Source function `UnpaidLeaveDecisionEngine::extract_json_from_string`. -/
def extract_json_from_string (text : Str) : Option (List ValidationError) :=
  extractLoop text patterns

-- =================== ZEN ERROR MODEL AND EXTRACTION CHAIN ===================

/-- Modelled from zen_engine (external): a node execution error is
represented by the `Debug` rendering of its nested `source` cause — the
only part of its structure the extraction code consumes. -/
structure NodeError where
  sourceDebug : Str
deriving DecidableEq

/-- Modelled from zen_engine (external): an evaluation error together with
the opaque `Debug` and `Display` renderings of the whole error, carried as
data. -/
inductive EvaluationError where
  | nodeError (ne : NodeError) (dbg : Str) (disp : Str)
  | other (dbg : Str) (disp : Str)
deriving DecidableEq

/-- Rendering `format!("{:?}", error)` of the whole error. -/
def evalErrorDebug : EvaluationError → Str
  | .nodeError _ dbg _ => dbg
  | .other dbg _ => dbg

/-- Rendering `format!("{}", error)` of the whole error. -/
def evalErrorDisplay : EvaluationError → Str
  | .nodeError _ _ disp => disp
  | .other _ disp => disp

/-- Source function `UnpaidLeaveDecisionEngine::extract_from_node_error`. -/
def extract_from_node_error (ne : NodeError) : Option (List ValidationError) :=
  extract_json_from_string ne.sourceDebug

/-- Source function `UnpaidLeaveDecisionEngine::extract_from_error_string`. -/
def extract_from_error_string (s : Str) : Option (List ValidationError) :=
  extract_json_from_string s

/-- Source function `UnpaidLeaveDecisionEngine::extract_validation_errors`: the `if let`
over the node-error variant with an early return on success, followed by
the unconditional scan of the whole-error rendering. -/
def extract_validation_errors (e : EvaluationError) : Option (List ValidationError) :=
  match (match e with
         | .nodeError ne _ _ => extract_from_node_error ne
         | .other _ _ => none) with
  | some errs => some errs
  | none => extract_from_error_string (evalErrorDebug e)

-- =================== THEOREMS: C1 ===================

lemma extractLoop_append (text : Str) (ps₁ ps₂ : List (Str × Str)) (sp ep : Str)
    (r : List ValidationError)
    (hfail : ∀ p ∈ ps₁, tryPattern text p.1 p.2 = none)
    (hsucc : tryPattern text sp ep = some r) :
    extractLoop text (ps₁ ++ (sp, ep) :: ps₂) = some r := by
  induction ps₁ with
  | nil => simp [extractLoop, hsucc]
  | cons hd tl ih =>
    obtain ⟨sp1, ep1⟩ := hd
    have h1 : tryPattern text sp1 ep1 = none := hfail (sp1, ep1) (by simp)
    have h2 : ∀ p ∈ tl, tryPattern text p.1 p.2 = none := fun p hp =>
      hfail p (List.mem_cons_of_mem _ hp)
    simpa [extractLoop, h1] using ih h2

/-- C1: among the three bracket patterns, the first (in priority order)
whose loop iteration succeeds — because its delimited candidate fragment
parses as a validation-error envelope, or failing that because the manual
fallback run during that iteration succeeds — determines the result of
`extract_json_from_string`, regardless of what any later pattern would
produce. -/
theorem extract_json_precedence (text : Str) (ps₁ ps₂ : List (Str × Str))
    (sp ep : Str) (r : List ValidationError)
    (hsplit : patterns = ps₁ ++ (sp, ep) :: ps₂)
    (hfail : ∀ p ∈ ps₁, tryPattern text p.1 p.2 = none)
    (hsucc : tryPattern text sp ep = some r) :
    extract_json_from_string text = some r := by
  rw [extract_json_from_string, hsplit]
  exact extractLoop_append text ps₁ ps₂ sp ep r hfail hsucc

/-- Concrete text for the C1 witness: the second pattern delimits a
candidate that parses, the opener of the first pattern is absent, and the third
pattern would also succeed (through the manual fallback) with a different
result. -/
def c1Text : Str :=
  ("\x7b\"errors\":0,\"source\":\x7b\"errors\":[\x7b\"message\":\"m\",\"path\":\"/p\"\x7d]\x7d,\"type\":\"Validation\"\x7d"
   ++ " zz is not one of yy,\"message\":\"other\"").data

theorem extract_json_precedence_witness :
    tryPattern c1Text startPattern1 endPatternValidation = none ∧
    tryPattern c1Text startPattern3 endPatternBracket =
      some [⟨"other", "/p"⟩] ∧
    extract_json_from_string c1Text = some [⟨"m", "/p"⟩] :=
  ⟨by decide, by decide,
   extract_json_precedence c1Text [(startPattern1, endPatternValidation)]
     [(startPattern3, endPatternBracket)] startPattern2 endPatternValidation
     [⟨"m", "/p"⟩] rfl (by decide) (by decide)⟩

-- =================== THEOREMS: C3 ===================

lemma getLast?_cons_getD {α : Type} (a : α) (t : List α) (m : α) :
    ((a :: t).getLast?).getD m = (t.getLast?).getD a := by
  induction t generalizing a m with
  | nil => rfl
  | cons b t' ih =>
    rw [List.getLast?_cons_cons]
    exact (ih b m).trans (ih b a).symm

lemma scanLines_eq (lines : List Str) (m p : String) :
    scanLines lines m p =
      (((lines.filterMap (recoverKey msgContKey msgKey)).getLast?).getD m,
       ((lines.filterMap (recoverKey pathContKey pathKey)).getLast?).getD p) := by
  induction lines generalizing m p with
  | nil => simp [scanLines]
  | cons line rest ih =>
    rw [scanLines, ih]
    cases hm : recoverKey msgContKey msgKey line <;>
      cases hp : recoverKey pathContKey pathKey line <;>
        simp [List.filterMap_cons, hm, hp, getLast?_cons_getD]

/-- C3: without the substring `is not one of` the manual fallback yields
nothing; with it, the recovered message is the last `"message":"..."`
value extracted from the comma-split fragments (the accumulator cannot
distinguish an extracted empty message from no message), and on success
the fallback yields exactly one `ValidationError` whose path is the last
recovered `"path":"..."` value, defaulted to `/input/unknown` when none
(or only an empty one) was recovered. -/
theorem manual_extract_spec (text : Str) :
    (containsSub text "is not one of".data = false →
        manual_extract_errors text = none) ∧
    (containsSub text "is not one of".data = true →
      (((splitComma text).filterMap (recoverKey msgContKey msgKey)).getLast?.getD "" = "" →
          manual_extract_errors text = none) ∧
      (∀ msg,
          ((splitComma text).filterMap (recoverKey msgContKey msgKey)).getLast? = some msg →
          msg ≠ "" →
          manual_extract_errors text =
            some [⟨msg,
              if ((splitComma text).filterMap (recoverKey pathContKey pathKey)).getLast?.getD "" = ""
              then "/input/unknown"
              else ((splitComma text).filterMap (recoverKey pathContKey pathKey)).getLast?.getD ""⟩])) := by
  have hs := scanLines_eq (splitComma text) "" ""
  refine ⟨fun h => ?_, fun h => ⟨fun hm => ?_, fun msg hm hne => ?_⟩⟩
  · simp only [manual_extract_errors, h, Bool.false_eq_true, if_false]
  · simp only [manual_extract_errors, h, if_true, hs, hm]
    simp
  · simp only [manual_extract_errors, h, if_true, hs, hm, Option.getD_some]
    rw [if_pos hne]

/-- Concrete text for the C3 witness. -/
def c3Text : Str :=
  "xxx is not one of yyy,\"message\":\"bad\",\"path\":\"/input/sit\"".data

theorem manual_extract_spec_witness :
    manual_extract_errors c3Text = some [⟨"bad", "/input/sit"⟩] := by
  have h := ((manual_extract_spec c3Text).2 (by decide)).2 "bad" (by decide) (by decide)
  exact h.trans (by decide)

-- =================== THEOREMS: C2 ===================

/-- Node error whose cause rendering yields nothing. -/
def c2Node : NodeError := ⟨"node failed".data⟩

/-- Whole-error rendering containing a parseable validation envelope. -/
def c2Dbg : Str :=
  "NodeError \x7b source: node failed, json: \x7b\"source\":\x7b\"errors\":[\x7b\"message\":\"bad\",\"path\":\"/input/relationship\"\x7d]\x7d,\"type\":\"Validation\"\x7d \x7d".data

/-- C2 counterexample: a node execution error whose cause text yields
nothing, yet extraction falls back to scanning the whole-error rendering
and succeeds there — the claim says that fallback must not happen. -/
theorem extract_validation_errors_counterexample :
    extract_from_node_error c2Node = none ∧
    extract_validation_errors (.nodeError c2Node c2Dbg []) =
      some [⟨"bad", "/input/relationship"⟩] :=
  ⟨by decide, by decide⟩

/-- C2 amended: for a node execution error the cause rendering is scanned
first and its success is returned; when the cause text yields nothing the
extraction falls back to scanning the whole-error rendering; only
non-node errors skip the cause scan. -/
theorem extract_validation_errors_order :
    (∀ ne dbg disp r, extract_from_node_error ne = some r →
        extract_validation_errors (.nodeError ne dbg disp) = some r) ∧
    (∀ ne dbg disp, extract_from_node_error ne = none →
        extract_validation_errors (.nodeError ne dbg disp) =
          extract_from_error_string dbg) ∧
    (∀ dbg disp, extract_validation_errors (.other dbg disp) =
        extract_from_error_string dbg) := by
  refine ⟨?_, ?_, ?_⟩
  · intro ne dbg disp r h
    simp [extract_validation_errors, h]
  · intro ne dbg disp h
    simp [extract_validation_errors, h, evalErrorDebug]
  · intro dbg disp
    simp [extract_validation_errors, evalErrorDebug]

theorem extract_validation_errors_order_witness :
    extract_validation_errors (.nodeError c2Node ("no patterns here".data) []) =
      extract_from_error_string ("no patterns here".data) :=
  extract_validation_errors_order.2.1 c2Node ("no patterns here".data) [] (by decide)

-- =================== SERDE VALUE MODEL ===================

/-- Value space of serde_json as presented to deserializers.  The float
domain is a type parameter `α`: floating-point values are carried, never
computed on, so numeric-coercion claims hold for every float domain and
every conversion function.  The three number constructors mirror
the serde_json internal number tag (i64 / u64 / f64), which decides which
visitor method runs. -/
inductive JVal (α : Type) where
  | null
  | bool (b : Bool)
  | numI (n : Int)
  | numU (n : Nat)
  | numF (x : α)
  | str (s : String)
  | arr (xs : List (JVal α))
  | obj (fields : List (String × JVal α))

/-- ASCII lowercasing; models Rust `to_lowercase` on the texts at issue
(Unicode case folding of non-ASCII characters is outside the model). -/
def lowerChar (c : Char) : Char :=
  if 'A' ≤ c ∧ c ≤ 'Z' then Char.ofNat (c.toNat + 32) else c

def lowerStr (s : String) : String := String.mk (s.data.map lowerChar)

/-- Source function `deserialize_bool_or_string`: the `BoolOrStringVisitor` dispatched over
a serde value.  `none` models the serde `visit_none` event (absent value); the
visitor implements only `visit_bool` and `visit_str`/`visit_string`, so
every other shape hits the default visitor methods, which produce an
invalid-type error. -/
def deserialize_bool_or_string {α : Type} : Option (JVal α) → Except String Bool
  | some (.bool b) => .ok b
  | some (.str s) =>
    if lowerStr s = "true" then .ok true
    else if lowerStr s = "false" then .ok false
    else .error ("invalid boolean string: " ++ s)
  | _ => .error "invalid type, expected bool or string"

/-- Source function `deserialize_f64_or_string`: the `F64OrStringVisitor`.  `castI`/`castU`
model Rust's `as f64` casts, `parseF` models `str::parse::<f64>`; `none`
models `visit_none`, `.null` reaches `visit_unit`. -/
def deserialize_f64_or_string {α : Type} (castI : Int → α) (castU : Nat → α)
    (parseF : String → Option α) : Option (JVal α) → Except String (Option α)
  | some (.numF x) => .ok (some x)
  | some (.numI n) => .ok (some (castI n))
  | some (.numU n) => .ok (some (castU n))
  | some (.str s) =>
    match parseF s with
    | some v => .ok (some v)
    | none => .error ("invalid number string: " ++ s)
  | some .null => .ok none
  | none => .ok none
  | _ => .error "invalid type, expected f64, string, or null"

-- =================== DATA STRUCTURES ===================

/-- Source struct `UnpaidLeaveDirectParams` (the flattened MCP parameter struct). -/
structure UnpaidLeaveDirectParams (α : Type) where
  relationship : String
  situation : String
  is_single_parent : Bool
  total_children_after : Option α
deriving DecidableEq

/-- Source struct `UnpaidLeaveInput` (the nested engine input; plain derived field
deserializers only). -/
structure UnpaidLeaveInput (α : Type) where
  relationship : String
  situation : String
  is_single_parent : Bool
  total_children_after : Option α
deriving DecidableEq

/-- Source struct `UnpaidLeaveOutputForSchema`. -/
structure UnpaidLeaveOutputForSchema where
  description : String
  monthly_benefit : Int
  additional_requirements : String
  «case» : String
  potentially_eligible : Bool
  errores : List String
  warnings : List String
deriving DecidableEq

/-- Source struct `UnpaidLeaveResponse`. -/
structure UnpaidLeaveResponse (α : Type) where
  output : UnpaidLeaveOutputForSchema
  input : Option (UnpaidLeaveInput α)
  relationship_valid : Option Bool
deriving DecidableEq

-- =========== DERIVED (DE)SERIALIZERS FOR THE RESPONSE TYPES ===========

/-- serde_json `String` deserialization from a value. -/
def deString {α : Type} : JVal α → Except String String
  | .str s => .ok s
  | _ => .error "invalid type, expected string"

/-- serde_json `bool` deserialization from a value. -/
def deBool {α : Type} : JVal α → Except String Bool
  | .bool b => .ok b
  | _ => .error "invalid type, expected bool"

/-- serde_json `i32` deserialization: integer numbers within range only
(a float number is an invalid type). -/
def deI32 {α : Type} : JVal α → Except String Int
  | .numI n =>
    if -2147483648 ≤ n ∧ n < 2147483648 then .ok n
    else .error "out of range for i32"
  | .numU n =>
    if (n : Int) < 2147483648 then .ok (n : Int)
    else .error "out of range for i32"
  | _ => .error "invalid type, expected i32"

/-- serde_json `f64` deserialization: any number; integer tags are cast. -/
def deF64 {α : Type} (castI : Int → α) (castU : Nat → α) : JVal α → Except String α
  | .numF x => .ok x
  | .numI n => .ok (castI n)
  | .numU n => .ok (castU n)
  | _ => .error "invalid type, expected f64"

/-- Deserialization of `Option<T>`: null is `None`, anything else is `Some`
of the inner deserialization. -/
def deOpt {α β : Type} (f : JVal α → Except String β) : JVal α → Except String (Option β)
  | .null => .ok none
  | v => (f v).map some

def deStringList {α : Type} : List (JVal α) → Except String (List String)
  | [] => .ok []
  | v :: vs =>
    match deString v, deStringList vs with
    | .ok s, .ok ss => .ok (s :: ss)
    | .error e, _ => .error e
    | _, .error e => .error e

/-- Deserialization of `Vec<String>`. -/
def deVecString {α : Type} : JVal α → Except String (List String)
  | .arr xs => deStringList xs
  | _ => .error "invalid type, expected sequence"

/-- serde `visit_map` loop for `UnpaidLeaveInput`: entries in order,
duplicate known fields rejected, unknown ignored; the plain
`Option<f64>` field defaults to `None` when absent. -/
def deInputFields {α : Type} (castI : Int → α) (castU : Nat → α) :
    List (String × JVal α) → Option String → Option String → Option Bool →
    Option (Option α) → Except String (UnpaidLeaveInput α)
  | [], rel?, sit?, sp?, tca? =>
    match rel? with
    | none => .error "missing field relationship"
    | some rel =>
      match sit? with
      | none => .error "missing field situation"
      | some sit =>
        match sp? with
        | none => .error "missing field is_single_parent"
        | some sp => .ok ⟨rel, sit, sp, tca?.getD none⟩
  | (k, v) :: rest, rel?, sit?, sp?, tca? =>
    if k = "relationship" then
      match rel? with
      | some _ => .error "duplicate field relationship"
      | none =>
        match deString v with
        | .ok s => deInputFields castI castU rest (some s) sit? sp? tca?
        | .error e => .error e
    else if k = "situation" then
      match sit? with
      | some _ => .error "duplicate field situation"
      | none =>
        match deString v with
        | .ok s => deInputFields castI castU rest rel? (some s) sp? tca?
        | .error e => .error e
    else if k = "is_single_parent" then
      match sp? with
      | some _ => .error "duplicate field is_single_parent"
      | none =>
        match deBool v with
        | .ok b => deInputFields castI castU rest rel? sit? (some b) tca?
        | .error e => .error e
    else if k = "total_children_after" then
      match tca? with
      | some _ => .error "duplicate field total_children_after"
      | none =>
        match deOpt (deF64 castI castU) v with
        | .ok t => deInputFields castI castU rest rel? sit? sp? (some t)
        | .error e => .error e
    else deInputFields castI castU rest rel? sit? sp? tca?

def deInput {α : Type} (castI : Int → α) (castU : Nat → α) :
    JVal α → Except String (UnpaidLeaveInput α)
  | .obj fields => deInputFields castI castU fields none none none none
  | _ => .error "invalid type, expected object"

/-- serde `visit_map` loop for `UnpaidLeaveOutputForSchema`:
`additional_requirements`, `errores` and `warnings` carry
`#[serde(default)]`, the other four fields are required. -/
def deOutputFields {α : Type} :
    List (String × JVal α) → Option String → Option Int → Option String →
    Option String → Option Bool → Option (List String) → Option (List String) →
    Except String UnpaidLeaveOutputForSchema
  | [], desc?, mb?, ar?, case?, pe?, err?, warn? =>
    match desc? with
    | none => .error "missing field description"
    | some desc =>
      match mb? with
      | none => .error "missing field monthly_benefit"
      | some mb =>
        match case? with
        | none => .error "missing field case"
        | some cs =>
          match pe? with
          | none => .error "missing field potentially_eligible"
          | some pe =>
            .ok ⟨desc, mb, ar?.getD "", cs, pe, err?.getD [], warn?.getD []⟩
  | (k, v) :: rest, desc?, mb?, ar?, case?, pe?, err?, warn? =>
    if k = "description" then
      match desc? with
      | some _ => .error "duplicate field description"
      | none =>
        match deString v with
        | .ok s => deOutputFields rest (some s) mb? ar? case? pe? err? warn?
        | .error e => .error e
    else if k = "monthly_benefit" then
      match mb? with
      | some _ => .error "duplicate field monthly_benefit"
      | none =>
        match deI32 v with
        | .ok n => deOutputFields rest desc? (some n) ar? case? pe? err? warn?
        | .error e => .error e
    else if k = "additional_requirements" then
      match ar? with
      | some _ => .error "duplicate field additional_requirements"
      | none =>
        match deString v with
        | .ok s => deOutputFields rest desc? mb? (some s) case? pe? err? warn?
        | .error e => .error e
    else if k = "case" then
      match case? with
      | some _ => .error "duplicate field case"
      | none =>
        match deString v with
        | .ok s => deOutputFields rest desc? mb? ar? (some s) pe? err? warn?
        | .error e => .error e
    else if k = "potentially_eligible" then
      match pe? with
      | some _ => .error "duplicate field potentially_eligible"
      | none =>
        match deBool v with
        | .ok b => deOutputFields rest desc? mb? ar? case? (some b) err? warn?
        | .error e => .error e
    else if k = "errores" then
      match err? with
      | some _ => .error "duplicate field errores"
      | none =>
        match deVecString v with
        | .ok l => deOutputFields rest desc? mb? ar? case? pe? (some l) warn?
        | .error e => .error e
    else if k = "warnings" then
      match warn? with
      | some _ => .error "duplicate field warnings"
      | none =>
        match deVecString v with
        | .ok l => deOutputFields rest desc? mb? ar? case? pe? err? (some l)
        | .error e => .error e
    else deOutputFields rest desc? mb? ar? case? pe? err? warn?

def deOutput {α : Type} : JVal α → Except String UnpaidLeaveOutputForSchema
  | .obj fields => deOutputFields fields none none none none none none none
  | _ => .error "invalid type, expected object"

/-- serde `visit_map` loop for `UnpaidLeaveResponse`: `output` required,
`input` and `relationship_valid` carry `#[serde(default)]`. -/
def deResponseFields {α : Type} (castI : Int → α) (castU : Nat → α) :
    List (String × JVal α) → Option UnpaidLeaveOutputForSchema →
    Option (Option (UnpaidLeaveInput α)) → Option (Option Bool) →
    Except String (UnpaidLeaveResponse α)
  | [], out?, in?, rv? =>
    match out? with
    | none => .error "missing field output"
    | some out => .ok ⟨out, in?.getD none, rv?.getD none⟩
  | (k, v) :: rest, out?, in?, rv? =>
    if k = "output" then
      match out? with
      | some _ => .error "duplicate field output"
      | none =>
        match deOutput v with
        | .ok o => deResponseFields castI castU rest (some o) in? rv?
        | .error e => .error e
    else if k = "input" then
      match in? with
      | some _ => .error "duplicate field input"
      | none =>
        match deOpt (deInput castI castU) v with
        | .ok i => deResponseFields castI castU rest out? (some i) rv?
        | .error e => .error e
    else if k = "relationship_valid" then
      match rv? with
      | some _ => .error "duplicate field relationship_valid"
      | none =>
        match deOpt deBool v with
        | .ok b => deResponseFields castI castU rest out? in? (some b)
        | .error e => .error e
    else deResponseFields castI castU rest out? in? rv?

/-- Models `serde_json::from_value::<UnpaidLeaveResponse>` (the Result
Mapper deserialization path). -/
def deResponse {α : Type} (castI : Int → α) (castU : Nat → α) :
    JVal α → Except String (UnpaidLeaveResponse α)
  | .obj fields => deResponseFields castI castU fields none none none
  | _ => .error "invalid type, expected object"

/-- Derived serialization of `UnpaidLeaveInput`
(`total_children_after` has `skip_serializing_if = "Option::is_none"`). -/
def serInput {α : Type} (i : UnpaidLeaveInput α) : JVal α :=
  .obj ([("relationship", .str i.relationship),
         ("situation", .str i.situation),
         ("is_single_parent", .bool i.is_single_parent)] ++
        (match i.total_children_after with
         | none => []
         | some x => [("total_children_after", .numF x)]))

/-- Derived serialization of `UnpaidLeaveOutputForSchema`; the i32 field
serializes under the integer number tag. -/
def serOutput {α : Type} (o : UnpaidLeaveOutputForSchema) : JVal α :=
  .obj [("description", .str o.description),
        ("monthly_benefit", .numI o.monthly_benefit),
        ("additional_requirements", .str o.additional_requirements),
        ("case", .str o.«case»),
        ("potentially_eligible", .bool o.potentially_eligible),
        ("errores", .arr (o.errores.map .str)),
        ("warnings", .arr (o.warnings.map .str))]

/-- Derived serialization of `UnpaidLeaveResponse` (plain `Option` fields
serialize as null when absent). -/
def serResponse {α : Type} (r : UnpaidLeaveResponse α) : JVal α :=
  .obj [("output", serOutput r.output),
        ("input", match r.input with | none => .null | some i => serInput i),
        ("relationship_valid",
         match r.relationship_valid with | none => .null | some b => .bool b)]

-- =================== DECISION ENGINE ===================

/-- Source enum `UnpaidLeaveError`. -/
inductive UnpaidLeaveError where
  | validationError (errors : List ValidationError)
  | zenEngineError (e : EvaluationError)
  | serializationError (msg : String)
deriving DecidableEq

/-- The `Display` impl for `UnpaidLeaveError`. -/
def displayUnpaidLeaveError : UnpaidLeaveError → String
  | .validationError errors =>
    "Validation errors:\n" ++
      String.join (errors.map fun er => "  - " ++ er.path ++ ": " ++ er.message ++ "\n")
  | .zenEngineError e => "Decision engine error: " ++ String.mk (evalErrorDisplay e)
  | .serializationError msg => "Serialization error: " ++ msg

/-- Source function `UnpaidLeaveDecisionEngine::evaluate_unpaid_leave`.  The decision-table
artifact is parsed inside this function on every call: `artifactParse`
carries the outcome of that `serde_json::from_str::<DecisionContent>` call
(the parsed content itself is irrelevant to the claims, and its parse
failure flows through the same `From<serde_json::Error>` conversion as any
serde failure), and `engineOutcome` carries the outcome of the external
`decision.evaluate` call. -/
def evaluate_unpaid_leave {α : Type} (castI : Int → α) (castU : Nat → α)
    (artifactParse : Except String Unit)
    (engineOutcome : Except EvaluationError (JVal α)) :
    Except UnpaidLeaveError (UnpaidLeaveResponse α) :=
  match artifactParse with
  | .error e => .error (.serializationError e)
  | .ok _ =>
    match engineOutcome with
    | .ok result =>
      match deResponse castI castU result with
      | .ok response => .ok response
      | .error e => .error (.serializationError e)
    | .error zenError =>
      match extract_validation_errors zenError with
      | some validationErrors => .error (.validationError validationErrors)
      | none => .error (.zenEngineError zenError)

-- =================== METRICS ===================

/-- The externally observable counts of the four instruments in
`metrics.rs`. -/
structure MetricsState where
  requests_total : Nat
  errors_total : Nat
  active_requests : Int
  duration_count : Nat
deriving DecidableEq

/-- Source function `increment_requests`. -/
def increment_requests (m : MetricsState) : MetricsState :=
  { m with requests_total := m.requests_total + 1 }

/-- Source function `increment_errors`. -/
def increment_errors (m : MetricsState) : MetricsState :=
  { m with errors_total := m.errors_total + 1 }

/-- Source function `RequestTimer::new`: gauge up, duration timer started. -/
def requestTimerNew (m : MetricsState) : MetricsState :=
  { m with active_requests := m.active_requests + 1 }

/-- Source impl `Drop for RequestTimer`: one duration observation, gauge down. -/
def requestTimerDrop (m : MetricsState) : MetricsState :=
  { m with duration_count := m.duration_count + 1,
           active_requests := m.active_requests - 1 }

-- =================== ORCHESTRATOR ===================

/-- Model of `rmcp::model::CallToolResult`, reduced to its success flag and text
content. -/
inductive CallToolResult where
  | success (content : List String)
  | error (content : List String)
deriving DecidableEq

/-- Source function `EligibilityEngine::evaluate_unpaid_leave_eligibility`.  External
outcomes are parameters: `serializeResponse` models
`serde_json::to_string_pretty`, `spawnOutcome` the result of
`tokio::task::spawn_blocking` (its error side is a join failure, its ok
side wraps the outcome of the engine call, which is then handled by
`evaluate_unpaid_leave`).  The `RequestTimer` created on entry is dropped
at scope exit, after the match. -/
def evaluate_unpaid_leave_eligibility {α : Type}
    (serializeResponse : UnpaidLeaveResponse α → Except String String)
    (castI : Int → α) (castU : Nat → α)
    (artifactParse : Except String Unit)
    (spawnOutcome : Except String (Except EvaluationError (JVal α)))
    (m : MetricsState) : Except String CallToolResult × MetricsState :=
  let m0 := increment_requests (requestTimerNew m)
  let result := spawnOutcome.map (evaluate_unpaid_leave castI castU artifactParse)
  let rm : Except String CallToolResult × MetricsState :=
    match result with
    | .ok (.ok response) =>
      match serializeResponse response with
      | .ok jsonStr => (.ok (.success [jsonStr]), m0)
      | .error e =>
        (.ok (.error ["Error serializing response: " ++ e]), increment_errors m0)
    | .ok (.error e) =>
      let errorMsg :=
        match e with
        | .validationError validationErrors =>
          "Validation errors:\n" ++
            String.join (validationErrors.map fun er =>
              "  - Field '" ++ er.path ++ "': " ++ er.message ++ "\n")
        | _ => "Evaluation error: " ++ displayUnpaidLeaveError e
      (.ok (.error [errorMsg]), increment_errors m0)
    | .error joinError =>
      (.ok (.error ["Internal error: " ++ joinError]), increment_errors m0)
  (rm.1, requestTimerDrop rm.2)

-- =================== MCP PARAMETER DISPATCH ===================

/-- serde `visit_map` loop for `UnpaidLeaveDirectParams`: entries in
order, duplicate known fields rejected, unknown ignored, all four fields
required at the end (`total_children_after` has a custom deserializer and
no `default`, which disables the serde missing-`Option` defaulting). -/
def deDirectFields {α : Type} (castI : Int → α) (castU : Nat → α)
    (parseF : String → Option α) :
    List (String × JVal α) → Option String → Option String → Option Bool →
    Option (Option α) → Except String (UnpaidLeaveDirectParams α)
  | [], rel?, sit?, sp?, tca? =>
    match rel? with
    | none => .error "missing field relationship"
    | some rel =>
      match sit? with
      | none => .error "missing field situation"
      | some sit =>
        match sp? with
        | none => .error "missing field is_single_parent"
        | some sp =>
          match tca? with
          | none => .error "missing field total_children_after"
          | some tca => .ok ⟨rel, sit, sp, tca⟩
  | (k, v) :: rest, rel?, sit?, sp?, tca? =>
    if k = "relationship" then
      match rel? with
      | some _ => .error "duplicate field relationship"
      | none =>
        match deString v with
        | .ok s => deDirectFields castI castU parseF rest (some s) sit? sp? tca?
        | .error e => .error e
    else if k = "situation" then
      match sit? with
      | some _ => .error "duplicate field situation"
      | none =>
        match deString v with
        | .ok s => deDirectFields castI castU parseF rest rel? (some s) sp? tca?
        | .error e => .error e
    else if k = "is_single_parent" then
      match sp? with
      | some _ => .error "duplicate field is_single_parent"
      | none =>
        match deserialize_bool_or_string (some v) with
        | .ok b => deDirectFields castI castU parseF rest rel? sit? (some b) tca?
        | .error e => .error e
    else if k = "total_children_after" then
      match tca? with
      | some _ => .error "duplicate field total_children_after"
      | none =>
        match deserialize_f64_or_string castI castU parseF (some v) with
        | .ok t => deDirectFields castI castU parseF rest rel? sit? sp? (some t)
        | .error e => .error e
    else deDirectFields castI castU parseF rest rel? sit? sp? tca?

/-- Models deserialization of `Parameters<UnpaidLeaveDirectParams>`. -/
def deserializeDirectParams {α : Type} (castI : Int → α) (castU : Nat → α)
    (parseF : String → Option α) : JVal α → Except String (UnpaidLeaveDirectParams α)
  | .obj fields => deDirectFields castI castU parseF fields none none none none
  | _ => .error "invalid type, expected object"

/-- Modelled from the rmcp framework (external): tool dispatch
deserializes the parameter document first; when that fails an
invalid-params RPC error is returned and the handler — hence the engine —
never runs.  `runEngine` stands for the spawned engine computation the
handler performs on the deserialized parameters. -/
def toolDispatch {α : Type}
    (serializeResponse : UnpaidLeaveResponse α → Except String String)
    (castI : Int → α) (castU : Nat → α) (parseF : String → Option α)
    (artifactParse : Except String Unit)
    (runEngine : UnpaidLeaveDirectParams α → Except String (Except EvaluationError (JVal α)))
    (paramsDoc : JVal α) (m : MetricsState) :
    Except String CallToolResult × MetricsState :=
  match deserializeDirectParams castI castU parseF paramsDoc with
  | .error e => (.error ("invalid params: " ++ e), m)
  | .ok params =>
    evaluate_unpaid_leave_eligibility serializeResponse castI castU artifactParse
      (runEngine params) m

-- =================== THEOREMS: C4 ===================

/-- C4: on an engine failure, `evaluate_unpaid_leave` yields the
`ValidationError` variant exactly when the extractor recovers a list and
otherwise passes the original opaque engine error through unchanged; and
the tool handler converts every failure of any taxonomy member into a
response-level payload: its outer result is an RPC success on every
input. -/
theorem evaluate_failure_taxonomy {α : Type} (castI : Int → α) (castU : Nat → α) :
    (∀ (zen : EvaluationError) (l : List ValidationError),
        (evaluate_unpaid_leave castI castU (.ok ()) (.error zen) =
            .error (.validationError l) ↔
          extract_validation_errors zen = some l)) ∧
    (∀ zen : EvaluationError, extract_validation_errors zen = none →
        evaluate_unpaid_leave castI castU (.ok ()) (.error zen) =
          .error (.zenEngineError zen)) ∧
    (∀ (ser : UnpaidLeaveResponse α → Except String String)
        (artifactParse : Except String Unit)
        (spawnOutcome : Except String (Except EvaluationError (JVal α)))
        (m : MetricsState),
        ∃ r, (evaluate_unpaid_leave_eligibility ser castI castU artifactParse
              spawnOutcome m).1 = .ok r) := by
  refine ⟨?_, ?_, ?_⟩
  · intro zen l
    cases h : extract_validation_errors zen <;> simp [evaluate_unpaid_leave, h]
  · intro zen h
    simp [evaluate_unpaid_leave, h]
  · intro ser artifactParse spawnOutcome m
    rcases spawnOutcome with j | o
    · exact ⟨_, rfl⟩
    · rcases heval : evaluate_unpaid_leave castI castU artifactParse o with e | resp
      · simp only [evaluate_unpaid_leave_eligibility, Except.map, heval]
        exact ⟨_, rfl⟩
      · rcases hser : ser resp with e2 | s2 <;>
          · simp only [evaluate_unpaid_leave_eligibility, Except.map, heval, hser]
            exact ⟨_, rfl⟩

theorem evaluate_failure_taxonomy_witness :
    extract_validation_errors (.other "boom".data "boom".data) = none ∧
    evaluate_unpaid_leave (fun n : Int => n) (fun n : Nat => (n : Int)) (.ok ())
        (.error (.other "boom".data "boom".data)) =
      .error (.zenEngineError (.other "boom".data "boom".data)) :=
  ⟨by decide,
   (evaluate_failure_taxonomy (fun n : Int => n) (fun n : Nat => (n : Int))).2.1
     (.other "boom".data "boom".data) (by decide)⟩

-- =================== THEOREMS: C5 ===================

/-- C5 counterexample: when the decision-table artifact fails to parse,
the failure does not abort startup — it surfaces as a per-request
`SerializationError`, and the tool handler returns it as a per-request
response-level error payload. -/
theorem artifact_parse_counterexample :
    evaluate_unpaid_leave (fun n : Int => n) (fun n : Nat => (n : Int))
        (.error "expected value at line 1 column 1") (.ok .null) =
      .error (.serializationError "expected value at line 1 column 1") ∧
    (evaluate_unpaid_leave_eligibility (fun _ => .ok "") (fun n : Int => n)
        (fun n : Nat => (n : Int)) (.error "expected value at line 1 column 1")
        (.ok (.ok .null)) ⟨0, 0, 0, 0⟩).1 =
      .ok (.error
        ["Evaluation error: Serialization error: expected value at line 1 column 1"]) :=
  ⟨rfl, rfl⟩

/-- C5 amended: the artifact is parsed inside every evaluation call; when
that parse fails, the failure is wrapped as a per-request
`SerializationError` — independently of the engine outcome — and the tool
handler surfaces it as a per-request response error payload, not a
startup abort. -/
theorem artifact_parse_per_request {α : Type} (castI : Int → α) (castU : Nat → α) :
    (∀ (e : String) (o : Except EvaluationError (JVal α)),
        evaluate_unpaid_leave castI castU (.error e) o =
          .error (.serializationError e)) ∧
    (∀ (ser : UnpaidLeaveResponse α → Except String String) (e : String)
        (o : Except EvaluationError (JVal α)) (m : MetricsState),
        (evaluate_unpaid_leave_eligibility ser castI castU (.error e) (.ok o) m).1 =
          .ok (.error ["Evaluation error: " ++ ("Serialization error: " ++ e)])) := by
  constructor
  · intro e o
    rfl
  · intro ser e o m
    simp [evaluate_unpaid_leave_eligibility, Except.map, evaluate_unpaid_leave,
      displayUnpaidLeaveError]

-- =================== THEOREMS: C7 ===================

/-- C7: numeric normalization returns a native float unchanged and an
integer-tagged number as its float cast; a string yields exactly what
parsing the string directly yields, an unparseable string fails with an
error naming it; null and absent both yield no value. -/
theorem numeric_coercion_spec {α : Type} (castI : Int → α) (castU : Nat → α)
    (parseF : String → Option α) :
    (∀ x : α, deserialize_f64_or_string castI castU parseF (some (.numF x)) =
        .ok (some x)) ∧
    (∀ n : Int, deserialize_f64_or_string castI castU parseF (some (.numI n)) =
        .ok (some (castI n))) ∧
    (∀ n : Nat, deserialize_f64_or_string castI castU parseF (some (.numU n)) =
        .ok (some (castU n))) ∧
    (∀ (s : String) (v : α), parseF s = some v →
        deserialize_f64_or_string castI castU parseF (some (.str s)) =
          .ok (some v)) ∧
    (∀ s : String, parseF s = none →
        deserialize_f64_or_string castI castU parseF (some (.str s)) =
          .error ("invalid number string: " ++ s)) ∧
    deserialize_f64_or_string castI castU parseF (some .null) = .ok none ∧
    deserialize_f64_or_string castI castU parseF none = .ok none := by
  refine ⟨fun x => rfl, fun n => rfl, fun n => rfl,
    fun s v h => ?_, fun s h => ?_, rfl, rfl⟩
  · simp [deserialize_f64_or_string, h]
  · simp [deserialize_f64_or_string, h]

theorem numeric_coercion_spec_witness :
    deserialize_f64_or_string (fun n : Int => n) (fun n : Nat => (n : Int))
        (fun s => if s = "2" then some 2 else none) (some (.str "2")) =
      .ok (some 2) ∧
    deserialize_f64_or_string (fun n : Int => n) (fun n : Nat => (n : Int))
        (fun s => if s = "2" then some 2 else none) (some (.str "abc")) =
      .error "invalid number string: abc" :=
  ⟨(numeric_coercion_spec _ _ _).2.2.2.1 "2" 2 (by decide),
   (numeric_coercion_spec _ _ _).2.2.2.2.1 "abc" (by decide)⟩

-- =================== THEOREMS: C8 ===================

/-- C8: every handler invocation counts exactly one request regardless of
outcome, and counts exactly one error precisely when the invocation ends
in an error payload of any kind (engine failure, validation failure,
response-serialization failure, isolation failure); the success path
leaves the error counter unchanged. -/
theorem metrics_counting_spec {α : Type}
    (ser : UnpaidLeaveResponse α → Except String String)
    (castI : Int → α) (castU : Nat → α)
    (artifactParse : Except String Unit)
    (spawnOutcome : Except String (Except EvaluationError (JVal α)))
    (m : MetricsState) :
    (evaluate_unpaid_leave_eligibility ser castI castU artifactParse
        spawnOutcome m).2.requests_total = m.requests_total + 1 ∧
    (evaluate_unpaid_leave_eligibility ser castI castU artifactParse
        spawnOutcome m).2.errors_total =
      m.errors_total +
        (match (evaluate_unpaid_leave_eligibility ser castI castU artifactParse
                spawnOutcome m).1 with
         | .ok (.error _) => 1
         | _ => 0) := by
  rcases spawnOutcome with j | o
  · simp [evaluate_unpaid_leave_eligibility, Except.map, requestTimerNew,
      requestTimerDrop, increment_requests, increment_errors]
  · rcases heval : evaluate_unpaid_leave castI castU artifactParse o with e | resp
    · rcases e <;>
        simp [evaluate_unpaid_leave_eligibility, Except.map, heval, requestTimerNew,
          requestTimerDrop, increment_requests, increment_errors]
    · rcases hser : ser resp with e2 | s2 <;>
        simp [evaluate_unpaid_leave_eligibility, Except.map, heval, hser,
          requestTimerNew, requestTimerDrop, increment_requests, increment_errors]

-- =================== THEOREMS: C10 ===================

/-- C10: timer creation raises the in-flight gauge by one; the scope-exit
drop records exactly one duration observation and lowers the gauge by
one; hence a completed handler invocation leaves the gauge at its entry
value and records exactly one observation, on every outcome path. -/
theorem request_timer_spec {α : Type}
    (ser : UnpaidLeaveResponse α → Except String String)
    (castI : Int → α) (castU : Nat → α)
    (artifactParse : Except String Unit)
    (spawnOutcome : Except String (Except EvaluationError (JVal α)))
    (m : MetricsState) :
    (requestTimerNew m).active_requests = m.active_requests + 1 ∧
    (∀ m' : MetricsState,
        (requestTimerDrop m').active_requests = m'.active_requests - 1 ∧
        (requestTimerDrop m').duration_count = m'.duration_count + 1) ∧
    (evaluate_unpaid_leave_eligibility ser castI castU artifactParse
        spawnOutcome m).2.active_requests = m.active_requests ∧
    (evaluate_unpaid_leave_eligibility ser castI castU artifactParse
        spawnOutcome m).2.duration_count = m.duration_count + 1 := by
  refine ⟨rfl, fun m' => ⟨rfl, rfl⟩, ?_, ?_⟩ <;>
    · rcases spawnOutcome with j | o
      · simp [evaluate_unpaid_leave_eligibility, Except.map, requestTimerNew,
          requestTimerDrop, increment_requests, increment_errors]
      · rcases heval : evaluate_unpaid_leave castI castU artifactParse o with e | resp
        · rcases e <;>
            simp [evaluate_unpaid_leave_eligibility, Except.map, heval,
              requestTimerNew, requestTimerDrop, increment_requests, increment_errors]
        · rcases hser : ser resp with e2 | s2 <;>
            simp [evaluate_unpaid_leave_eligibility, Except.map, heval, hser,
              requestTimerNew, requestTimerDrop, increment_requests, increment_errors]

-- =================== THEOREMS: C9 ===================

lemma deStringList_map_str {α : Type} (l : List String) :
    deStringList (α := α) (l.map JVal.str) = .ok l := by
  induction l with
  | nil => rfl
  | cons s rest ih => simp [deStringList, deString, ih]

lemma deInput_serInput {α : Type} (castI : Int → α) (castU : Nat → α)
    (i : UnpaidLeaveInput α) :
    deInput castI castU (serInput i) = .ok i := by
  rcases i with ⟨rel, sit, sp, tca⟩
  cases tca <;> rfl

lemma deOpt_null {α β : Type} (f : JVal α → Except String β) :
    deOpt f .null = .ok none := rfl

lemma deOpt_bool {α : Type} (b : Bool) :
    deOpt (α := α) deBool (.bool b) = .ok (some b) := rfl

lemma deOpt_serInput {α : Type} (castI : Int → α) (castU : Nat → α)
    (i : UnpaidLeaveInput α) :
    deOpt (deInput castI castU) (serInput i) = .ok (some i) := by
  rcases i with ⟨rel, sit, sp, tca⟩
  cases tca <;> rfl

lemma deOutput_serOutput {α : Type} (o : UnpaidLeaveOutputForSchema)
    (h1 : -2147483648 ≤ o.monthly_benefit) (h2 : o.monthly_benefit < 2147483648) :
    deOutput (α := α) (serOutput o) = .ok o := by
  rcases o with ⟨desc, mb, ar, cs, pe, err, warn⟩
  simp only at h1 h2
  simp [serOutput, deOutput, deOutputFields, deString, deI32, deBool, deVecString,
    deStringList_map_str, h1, h2]

lemma deI32_ok_range {α : Type} (v : JVal α) (n : Int) (h : deI32 v = .ok n) :
    -2147483648 ≤ n ∧ n < 2147483648 := by
  cases v with
  | numI k =>
    simp only [deI32] at h
    split at h
    · rename_i hc
      injection h with h2
      subst h2
      exact hc
    · simp at h
  | numU k =>
    simp only [deI32] at h
    split at h
    · rename_i hc
      injection h with h2
      subst h2
      exact ⟨by omega, hc⟩
    · simp at h
  | null => simp [deI32] at h
  | bool b => simp [deI32] at h
  | numF x => simp [deI32] at h
  | str s => simp [deI32] at h
  | arr xs => simp [deI32] at h
  | obj fs => simp [deI32] at h

lemma deOutputFields_ok_range {α : Type} (fields : List (String × JVal α)) :
    ∀ (desc? : Option String) (mb? : Option Int) (ar? case? : Option String)
      (pe? : Option Bool) (err? warn? : Option (List String))
      (o : UnpaidLeaveOutputForSchema),
      deOutputFields fields desc? mb? ar? case? pe? err? warn? = .ok o →
      (∀ n, mb? = some n → -2147483648 ≤ n ∧ n < 2147483648) →
      -2147483648 ≤ o.monthly_benefit ∧ o.monthly_benefit < 2147483648 := by
  induction fields with
  | nil =>
    intro desc? mb? ar? case? pe? err? warn? o h hm
    simp only [deOutputFields] at h
    rcases desc? with _ | desc
    · simp at h
    rcases mb? with _ | mb
    · simp at h
    rcases case? with _ | cs
    · simp at h
    rcases pe? with _ | pe
    · simp at h
    injection h with h2
    subst h2
    exact hm mb rfl
  | cons hd rest ih =>
    intro desc? mb? ar? case? pe? err? warn? o h hm
    obtain ⟨k, v⟩ := hd
    simp only [deOutputFields] at h
    split_ifs at h <;>
      (repeat' split at h) <;>
        first
          | exact absurd h (by simp)
          | exact ih _ _ _ _ _ _ _ _ h hm
          | (rename_i n hn
             exact ih _ _ _ _ _ _ _ _ h (fun n' hn' => by
               injection hn' with e
               subst e
               exact deI32_ok_range v n hn))

lemma deOutput_ok_range {α : Type} (v : JVal α) (o : UnpaidLeaveOutputForSchema)
    (h : deOutput v = .ok o) :
    -2147483648 ≤ o.monthly_benefit ∧ o.monthly_benefit < 2147483648 := by
  cases v with
  | obj fields =>
    exact deOutputFields_ok_range fields none none none none none none none o h
      (fun n hn => by cases hn)
  | null => simp [deOutput] at h
  | bool b => simp [deOutput] at h
  | numI k => simp [deOutput] at h
  | numU k => simp [deOutput] at h
  | numF x => simp [deOutput] at h
  | str s => simp [deOutput] at h
  | arr xs => simp [deOutput] at h

lemma deResponseFields_ok_range {α : Type} (castI : Int → α) (castU : Nat → α)
    (fields : List (String × JVal α)) :
    ∀ (out? : Option UnpaidLeaveOutputForSchema)
      (in? : Option (Option (UnpaidLeaveInput α))) (rv? : Option (Option Bool))
      (r : UnpaidLeaveResponse α),
      deResponseFields castI castU fields out? in? rv? = .ok r →
      (∀ o, out? = some o →
        -2147483648 ≤ o.monthly_benefit ∧ o.monthly_benefit < 2147483648) →
      -2147483648 ≤ r.output.monthly_benefit ∧
        r.output.monthly_benefit < 2147483648 := by
  induction fields with
  | nil =>
    intro out? in? rv? r h hm
    simp only [deResponseFields] at h
    rcases out? with _ | out
    · simp at h
    injection h with h2
    subst h2
    exact hm out rfl
  | cons hd rest ih =>
    intro out? in? rv? r h hm
    obtain ⟨k, v⟩ := hd
    simp only [deResponseFields] at h
    split_ifs at h <;>
      (repeat' split at h) <;>
        first
          | exact absurd h (by simp)
          | exact ih _ _ _ _ h hm
          | (rename_i o1 ho1
             exact ih _ _ _ _ h (fun o' ho' => by
               injection ho' with e
               subst e
               exact deOutput_ok_range v o1 ho1))

lemma deResponse_ok_range {α : Type} (castI : Int → α) (castU : Nat → α)
    (d : JVal α) (r : UnpaidLeaveResponse α) (h : deResponse castI castU d = .ok r) :
    -2147483648 ≤ r.output.monthly_benefit ∧
      r.output.monthly_benefit < 2147483648 := by
  cases d with
  | obj fields =>
    exact deResponseFields_ok_range castI castU fields none none none r h
      (fun o ho => by cases ho)
  | null => simp [deResponse] at h
  | bool b => simp [deResponse] at h
  | numI k => simp [deResponse] at h
  | numU k => simp [deResponse] at h
  | numF x => simp [deResponse] at h
  | str s => simp [deResponse] at h
  | arr xs => simp [deResponse] at h

/-- C9: the round trip through the Result Mapper is lossless for every
declared field: a response deserialized from any well-formed document
serializes back to a document that deserializes to the identical response
value, and more generally serialize-then-deserialize is the identity on
every response value whose benefit amount fits the declared i32 field. -/
theorem response_round_trip {α : Type} (castI : Int → α) (castU : Nat → α) :
    (∀ (d : JVal α) (r : UnpaidLeaveResponse α),
        deResponse castI castU d = .ok r →
        deResponse castI castU (serResponse r) = .ok r) ∧
    (∀ r : UnpaidLeaveResponse α,
        -2147483648 ≤ r.output.monthly_benefit →
        r.output.monthly_benefit < 2147483648 →
        deResponse castI castU (serResponse r) = .ok r) := by
  have key : ∀ r : UnpaidLeaveResponse α,
      -2147483648 ≤ r.output.monthly_benefit →
      r.output.monthly_benefit < 2147483648 →
      deResponse castI castU (serResponse r) = .ok r := by
    intro r h1 h2
    rcases r with ⟨out, inp, rv⟩
    simp only at h1 h2
    rcases inp with _ | i <;> rcases rv with _ | b <;>
      simp [serResponse, deResponse, deResponseFields, deOpt_null, deOpt_bool,
        deOpt_serInput, deOutput_serOutput out h1 h2]
  refine ⟨fun d r h => ?_, key⟩
  obtain ⟨h1, h2⟩ := deResponse_ok_range castI castU d r h
  exact key r h1 h2

/-- Concrete response value for the C9 witness. -/
def c9Response : UnpaidLeaveResponse Int :=
  ⟨⟨"Case A: care of a sick family member", 725, "", "A", true, [], ["w1"]⟩,
   some ⟨"mother", "illness", false, some 2⟩, some true⟩

theorem response_round_trip_witness :
    deResponse (fun n : Int => n) (fun n : Nat => (n : Int))
        (serResponse c9Response) = .ok c9Response :=
  (response_round_trip (fun n : Int => n) (fun n : Nat => (n : Int))).2 c9Response
    (by decide) (by decide)

-- =================== THEOREMS: C6 ===================

lemma deDirectFields_ok_bool {α : Type} (castI : Int → α) (castU : Nat → α)
    (parseF : String → Option α) (s : String) (fields : List (String × JVal α)) :
    ∀ (rel? sit? : Option String) (sp? : Option Bool) (tca? : Option (Option α))
      (p : UnpaidLeaveDirectParams α),
      deDirectFields castI castU parseF fields rel? sit? sp? tca? = .ok p →
      ("is_single_parent", JVal.str s) ∈ fields →
      lowerStr s = "true" ∨ lowerStr s = "false" := by
  induction fields with
  | nil =>
    intro rel? sit? sp? tca? p _ hmem
    cases hmem
  | cons hd rest ih =>
    intro rel? sit? sp? tca? p h hmem
    obtain ⟨k, v⟩ := hd
    rcases List.mem_cons.mp hmem with heq | hmem'
    · injection heq with hk hv
      subst hk
      subst hv
      by_cases h1 : lowerStr s = "true"
      · exact Or.inl h1
      by_cases h2 : lowerStr s = "false"
      · exact Or.inr h2
      simp only [deDirectFields, deserialize_bool_or_string, h1, h2] at h
      rcases sp? with _ | b <;> simp at h
    · simp only [deDirectFields] at h
      split_ifs at h <;>
        (repeat' split at h) <;>
          first
            | exact absurd h (by simp)
            | exact ih _ _ _ _ _ h hmem'

/-- C6: boolean normalization accepts a native boolean verbatim and a
string matching "true"/"false" case-insensitively; any other string fails
with an error naming the offending value, and a request carrying such a
string for `is_single_parent` never reaches the engine: the dispatch
outcome does not depend on the engine computation at all. -/
theorem bool_coercion_spec {α : Type} :
    (∀ b : Bool, deserialize_bool_or_string (α := α) (some (.bool b)) = .ok b) ∧
    (∀ s : String, lowerStr s = "true" →
        deserialize_bool_or_string (α := α) (some (.str s)) = .ok true) ∧
    (∀ s : String, lowerStr s = "false" →
        deserialize_bool_or_string (α := α) (some (.str s)) = .ok false) ∧
    (∀ s : String, lowerStr s ≠ "true" → lowerStr s ≠ "false" →
        deserialize_bool_or_string (α := α) (some (.str s)) =
          .error ("invalid boolean string: " ++ s)) ∧
    (∀ (castI : Int → α) (castU : Nat → α) (parseF : String → Option α)
        (ser : UnpaidLeaveResponse α → Except String String)
        (artifactParse : Except String Unit)
        (fields : List (String × JVal α)) (s : String) (m : MetricsState)
        (run₁ run₂ : UnpaidLeaveDirectParams α →
          Except String (Except EvaluationError (JVal α))),
        ("is_single_parent", JVal.str s) ∈ fields →
        lowerStr s ≠ "true" → lowerStr s ≠ "false" →
        toolDispatch ser castI castU parseF artifactParse run₁ (.obj fields) m =
          toolDispatch ser castI castU parseF artifactParse run₂ (.obj fields) m) := by
  refine ⟨fun b => rfl, ?_, ?_, ?_, ?_⟩
  · intro s h
    simp [deserialize_bool_or_string, h]
  · intro s h
    simp [deserialize_bool_or_string, h]
  · intro s h1 h2
    simp [deserialize_bool_or_string, h1, h2]
  · intro castI castU parseF ser artifactParse fields s m run₁ run₂ hmem h1 h2
    rcases hde : deDirectFields castI castU parseF fields none none none none with e | p
    · simp [toolDispatch, deserializeDirectParams, hde]
    · rcases deDirectFields_ok_bool castI castU parseF s fields none none none none
        p hde hmem with h | h
      · exact absurd h h1
      · exact absurd h h2

/-- Concrete parameter document for the C6 witness (Scenario 5:
`is_single_parent="maybe"`). -/
def c6Fields : List (String × JVal Int) :=
  [("relationship", .str "mother"), ("situation", .str "illness"),
   ("is_single_parent", .str "maybe"), ("total_children_after", .numI 0)]

theorem bool_coercion_spec_witness :
    deserialize_bool_or_string (α := Int) (some (.str "True")) = .ok true ∧
    deserialize_bool_or_string (α := Int) (some (.str "maybe")) =
      .error "invalid boolean string: maybe" ∧
    toolDispatch (fun _ => .ok "") (fun n : Int => n) (fun n : Nat => (n : Int))
        (fun _ => none) (.ok ()) (fun _ => .ok (.ok .null))
        (.obj c6Fields) ⟨0, 0, 0, 0⟩ =
      toolDispatch (fun _ => .ok "") (fun n : Int => n) (fun n : Nat => (n : Int))
        (fun _ => none) (.ok ()) (fun _ => .error "engine not reached")
        (.obj c6Fields) ⟨0, 0, 0, 0⟩ :=
  ⟨bool_coercion_spec.2.1 "True" (by decide),
   bool_coercion_spec.2.2.2.1 "maybe" (by decide) (by decide),
   bool_coercion_spec.2.2.2.2 (fun n : Int => n) (fun n : Nat => (n : Int))
     (fun _ => none) (fun _ => .ok "") (.ok ()) c6Fields "maybe" ⟨0, 0, 0, 0⟩
     (fun _ => .ok (.ok .null)) (fun _ => .error "engine not reached")
     (by simp [c6Fields]) (by decide) (by decide)⟩

end Eligibility
